import Mathlib

/-
Verification development for the colour-predicting application.

The repository is a conversational intake workflow: a langgraph dialogue
controller (app/agents/requirements_graph.py) alternates between an
LLM-backed extraction step and a user-input interrupt, and once the
requirement set is complete it invokes a local regression model
(app/agents/tools/colour_model.py) to predict an RGB colour.  A FastAPI
session boundary (app/api/main.py) maps HTTP chat messages onto controller
turns.

The development below is a shallow embedding of that code.  External
effects (the LLM call, the regression model inference, uuid generation)
are passed in as explicit oracle parameters; everything else is translated
directly from the source.  Python dictionaries are modelled by the PyVal
universe, machine floats by rationals, and raised-versus-caught exceptions
by Except values.
-/

namespace ColourApp

/-- Universe of Python values appearing in the dictionaries this
application passes around: numbers (int and float collapsed to rationals),
booleans, strings, None, lists and string-keyed dicts. -/
inductive PyVal where
  | num (q : ℚ)
  | boolean (b : Bool)
  | str (s : String)
  | pyNone
  | list (items : List PyVal)
  | dict (entries : List (String × PyVal))

/-- A Python dict with string keys. -/
abbrev PyDict := List (String × PyVal)

/-- Association-list lookup, first binding wins (Python dict key lookup). -/
def dictLookup (d : PyDict) (key : String) : Option PyVal :=
  match d with
  | [] => Option.none
  | (k, v) :: rest => if k = key then some v else dictLookup rest key

/-- Python `d.get(key, default)` on a dict. -/
def dictGetD (d : PyDict) (key : String) (default : PyVal) : PyVal :=
  match dictLookup d key with
  | some v => v
  | Option.none => default

/-- Python name of the type of a modelled value (used in error messages of
raised TypeError and AttributeError; int and float are collapsed). -/
def pyTypeName : PyVal → String
  | .num _ => "float"
  | .boolean _ => "bool"
  | .str _ => "str"
  | .pyNone => "NoneType"
  | .list _ => "list"
  | .dict _ => "dict"

/-- Python `v.get(key)` where `v` should be a dict: returns the value or
None when the key is absent, and raises AttributeError when `v` is not a
dict (modelled as an Except error). -/
def pyGet (v : PyVal) (key : String) : Except String PyVal :=
  match v with
  | .dict entries =>
    match dictLookup entries key with
    | some x => .ok x
    | Option.none => .ok .pyNone
  | other =>
    .error ("\x27" ++ pyTypeName other ++ "\x27 object has no attribute \x27" ++ key ++ "\x27")

/-- Python `float(v)`.  Numbers pass through, booleans become 0 or 1,
None and containers raise TypeError.  (Python would also parse numeric
strings; no string ever reaches a numeric slot in this system, and the
string case is modelled as a conversion failure.) -/
def pyFloat : PyVal → Except String ℚ
  | .num q => .ok q
  | .boolean b => .ok (if b then 1 else 0)
  | other =>
    .error ("float() argument must be a string or a real number, not \x27" ++ pyTypeName other ++ "\x27")

/-- Python `int(x)` applied to a float truncates toward zero.  For a
rational num/den this is exactly Int division (T-division). -/
def pyTrunc (q : ℚ) : ℤ :=
  Int.tdiv q.num (q.den : ℤ)

/-- Python `int(v)` on a modelled value: truncates numbers toward zero,
maps booleans to 0 or 1, raises TypeError otherwise.  (Python would parse
integer-literal strings; as with pyFloat the string case is modelled as a
conversion failure.) -/
def pyIntFn : PyVal → Except String ℤ
  | .num q => .ok (pyTrunc q)
  | .boolean b => .ok (if b then 1 else 0)
  | other =>
    .error ("int() argument must be a string, a bytes-like object or a real number, not \x27" ++ pyTypeName other ++ "\x27")

/-- Clamp an integer channel to [0, 255]: `max(0, min(255, n))` from
_make_prediction. -/
def clampChannel (n : ℤ) : ℤ :=
  max 0 (min 255 n)

/-- Lowercase hex digit character for a value below 16
(digits then letters a..f, as produced by Python format code x). -/
def hexDigitChar (n : ℕ) : Char :=
  if n < 10 then Char.ofNat (48 + n) else Char.ofNat (87 + n)

/-- Python format `02x` of a number below 256: exactly two lowercase hex
digits. -/
def toHex2 (n : ℕ) : String :=
  ⟨[hexDigitChar (n / 16), hexDigitChar (n % 16)]⟩

/-- The f-string from _make_prediction building the hex colour code:
a hash sign followed by three 02x-formatted channels. -/
def hexColor (r g b : ℤ) : String :=
  "#" ++ toHex2 r.toNat ++ toHex2 g.toNat ++ toHex2 b.toNat

/-- Numeric value of a hex digit character (inverse of hexDigitChar). -/
def hexDigitVal (c : Char) : ℕ :=
  if c.toNat ≤ 57 then c.toNat - 48 else c.toNat - 87

/-- Whether a character is a lowercase hexadecimal digit (0-9 or a-f). -/
def isLowerHexDigit (c : Char) : Bool :=
  (48 ≤ c.toNat && c.toNat ≤ 57) || (97 ≤ c.toNat && c.toNat ≤ 102)

/-- Parse a character list of the exact shape hash-r-r-g-g-b-b back into
three channels; any other shape gives none. -/
def decodeHexChars : List Char → Option (ℕ × ℕ × ℕ)
  | ['#', r1, r2, g1, g2, b1, b2] =>
    if ([r1, r2, g1, g2, b1, b2].all isLowerHexDigit) then
      some (16 * hexDigitVal r1 + hexDigitVal r2,
            16 * hexDigitVal g1 + hexDigitVal g2,
            16 * hexDigitVal b1 + hexDigitVal b2)
    else Option.none
  | _ => Option.none

/-- Parse a string of the exact shape hash-r-r-g-g-b-b back into its three
channels; any other shape gives none.  Used to state that the emitted hex
code is derived from the exact channel values. -/
def decodeHexColor (s : String) : Option (ℕ × ℕ × ℕ) :=
  decodeHexChars s.data

/-- Outcome of the effectful part of _make_prediction: loading the model
artifact and running inference.  fileNotFound is the FileNotFoundError
raised by _load_model when the artifact is missing on disk; exn is any
other exception during loading, input shaping or inference; ok carries the
three continuous outputs of model.predict (row 0 of the returned array). -/
inductive InferOutcome where
  | fileNotFound (path : String)
  | exn (msg : String)
  | ok (r g b : ℚ)

/-- Message of the FileNotFoundError raised by _load_model. -/
def fileNotFoundMsg (path : String) : String :=
  "Model file not found at " ++ path ++ ". Please ensure the trained model file \x27colour_changing_predictor.pkl\x27 exists."

/-- Result dictionary returned by _make_prediction and
predict_from_requirements.  Fields that are absent from the Python dict or
set to None are both modelled as none (no claim distinguishes the two). -/
structure PredictionResult where
  success : Bool
  predicted_rgb : Option (ℤ × ℤ × ℤ)
  hex_color : Option String
  error : Option String
  input_parameters : Option (List (String × PyVal))

/-- Shallow embedding of _make_prediction (colour_model.py lines 132-226).
The numeric parameters only flow into the echoed input_parameters field;
the model load and inference are the InferOutcome oracle.  On ok the three
outputs are truncated by int(), clamped to [0, 255] and formatted as a
lowercase hex code; FileNotFoundError and any other exception are caught
and surfaced as a success-false dictionary. -/
def makePrediction (outcome : InferOutcome) (params : List (String × PyVal)) : PredictionResult :=
  match outcome with
  | .fileNotFound path =>
    { success := false, predicted_rgb := Option.none, hex_color := Option.none,
      error := some (fileNotFoundMsg path), input_parameters := Option.none }
  | .exn msg =>
    { success := false, predicted_rgb := Option.none, hex_color := Option.none,
      error := some ("Prediction failed: " ++ msg), input_parameters := Option.none }
  | .ok r g b =>
    let rgb_r := clampChannel (pyTrunc r)
    let rgb_g := clampChannel (pyTrunc g)
    let rgb_b := clampChannel (pyTrunc b)
    { success := true,
      predicted_rgb := some (rgb_r, rgb_g, rgb_b),
      hex_color := some (hexColor rgb_r rgb_g rgb_b),
      error := Option.none,
      input_parameters := some params }

/-- The twelve values extracted from the requirements dictionary by
predict_from_requirements before it calls _make_prediction.  Values that
the source passes through unconverted stay PyVal; the two temperatures are
converted by float() and the liquor ratio by int(). -/
structure ExtractedParams where
  red : PyVal
  green : PyVal
  blue : PyVal
  salt : PyVal
  soda_ash : PyVal
  dyeing_temperature : ℚ
  soaping_temperature : ℚ
  dyeing_time : PyVal
  soaping_time : PyVal
  liquor_ratio : ℤ
  ph_level : PyVal
  water_hardness : PyVal

/-- The value extraction performed inside the try block of
predict_from_requirements (colour_model.py lines 311-334), in Python
evaluation order: the seven sub-mappings are fetched with get defaulting
to an empty dict, then each argument expression is evaluated left to
right; a get on a non-dict sub-value raises AttributeError, float(None)
and int(None) raise TypeError — all modelled as Except errors. -/
def extractParams (requirements : PyDict) : Except String ExtractedParams := do
  let rgb_details := dictGetD requirements "rgb_details" (PyVal.dict [])
  let chemical_details := dictGetD requirements "chemical_details" (PyVal.dict [])
  let temperature_details := dictGetD requirements "temperature_details" (PyVal.dict [])
  let time_details := dictGetD requirements "time_details" (PyVal.dict [])
  let liquor_ratio_details := dictGetD requirements "liquor_ratio" (PyVal.dict [])
  let ph_details := dictGetD requirements "pH" (PyVal.dict [])
  let water_hardness_details := dictGetD requirements "water_hardness_ppm" (PyVal.dict [])
  let red ← pyGet rgb_details "dye_red_owf"
  let green ← pyGet rgb_details "dye_green_owf"
  let blue ← pyGet rgb_details "dye_blue_owf"
  let salt ← pyGet chemical_details "salt_gL"
  let soda_ash ← pyGet chemical_details "sodaAsh_gL"
  let dyeing_temperature ← pyFloat (← pyGet temperature_details "temp_C")
  let soaping_temperature ← pyFloat (← pyGet temperature_details "soap_temp_C")
  let dyeing_time ← pyGet time_details "time_min"
  let soaping_time ← pyGet time_details "soap_time_min"
  let lr ← pyIntFn (← pyGet liquor_ratio_details "liquor_ratio")
  let ph_level ← pyGet ph_details "pH"
  let wh ← pyGet water_hardness_details "water_hardness_ppm"
  pure { red := red, green := green, blue := blue, salt := salt, soda_ash := soda_ash,
         dyeing_temperature := dyeing_temperature, soaping_temperature := soaping_temperature,
         dyeing_time := dyeing_time, soaping_time := soaping_time, liquor_ratio := lr,
         ph_level := ph_level, water_hardness := wh }

/-- The keyword arguments of the _make_prediction call as they are echoed
back in the input_parameters field of a successful result. -/
def paramsList (p : ExtractedParams) : List (String × PyVal) :=
  [("red", p.red), ("green", p.green), ("blue", p.blue),
   ("salt", p.salt), ("soda_ash", p.soda_ash),
   ("dyeing_temperature", PyVal.num p.dyeing_temperature),
   ("soaping_temperature", PyVal.num p.soaping_temperature),
   ("dyeing_time", p.dyeing_time), ("soaping_time", p.soaping_time),
   ("liquor_ratio", PyVal.num (p.liquor_ratio : ℚ)),
   ("ph_level", p.ph_level), ("water_hardness", p.water_hardness)]

/-- Shallow embedding of predict_from_requirements (colour_model.py lines
283-349): extract the twelve values from the requirements dictionary and
call _make_prediction; any exception raised during extraction is caught
and surfaced as a success-false dictionary.  (The KeyError branch of the
source is unreachable because every lookup goes through get.) -/
def predict_from_requirements (outcome : InferOutcome) (requirements : PyDict) : PredictionResult :=
  match extractParams requirements with
  | .ok p => makePrediction outcome (paramsList p)
  | .error msg =>
    { success := false, predicted_rgb := Option.none, hex_color := Option.none,
      error := some ("Failed to extract requirements: " ++ msg), input_parameters := Option.none }

/-- Pydantic model RgbDetails: three required dye percentages. -/
structure RgbDetails where
  dye_red_owf : ℚ
  dye_green_owf : ℚ
  dye_blue_owf : ℚ

/-- Pydantic model ChemicalDetails: two required concentrations. -/
structure ChemicalDetails where
  salt_gL : ℚ
  sodaAsh_gL : ℚ

/-- Pydantic model TemperatureDetails: two required integer temperatures. -/
structure TemperatureDetails where
  temp_C : ℤ
  soap_temp_C : ℤ

/-- Pydantic model TimeDetails: two required integer durations. -/
structure TimeDetails where
  time_min : ℤ
  soap_time_min : ℤ

/-- Pydantic model LiquorRatio: one required ratio. -/
structure LiquorRatio where
  liquor_ratio : ℚ

/-- Pydantic model PhDetails: one required acidity value. -/
structure PhDetails where
  pH : ℚ

/-- Pydantic model WaterHardness: one required hardness value. -/
structure WaterHardness where
  water_hardness_ppm : ℤ

/-- Pydantic model UserConfirmations: a required flag and optional notes. -/
structure UserConfirmations where
  accept_outbound_top_option : Bool
  notes : Option String

/-- Pydantic model MissingInfo: unresolved field names and the outstanding
question (empty string when nothing is missing). -/
structure MissingInfo where
  missing_fields : List String
  question : String

/-- Pydantic model CompleteRequirements
(response_models/requirements_agent.py lines 48-57).  Every field is
required and non-Optional, so a validated instance always carries all
twelve scalar values; this structure reflects that by making them plain
(non-Option) fields. -/
structure CompleteRequirements where
  rgb_details : RgbDetails
  chemical_details : ChemicalDetails
  temperature_details : TemperatureDetails
  time_details : TimeDetails
  liquor_ratio : LiquorRatio
  pH : PhDetails
  water_hardness_ppm : WaterHardness
  user_confirmations : UserConfirmations
  missing_info : MissingInfo

/-- Pydantic model_dump of CompleteRequirements: the nested dictionary
stored in the graph state and later consumed by
predict_from_requirements. -/
def dumpRequirements (r : CompleteRequirements) : PyDict :=
  [("rgb_details", PyVal.dict
      [("dye_red_owf", PyVal.num r.rgb_details.dye_red_owf),
       ("dye_green_owf", PyVal.num r.rgb_details.dye_green_owf),
       ("dye_blue_owf", PyVal.num r.rgb_details.dye_blue_owf)]),
   ("chemical_details", PyVal.dict
      [("salt_gL", PyVal.num r.chemical_details.salt_gL),
       ("sodaAsh_gL", PyVal.num r.chemical_details.sodaAsh_gL)]),
   ("temperature_details", PyVal.dict
      [("temp_C", PyVal.num (r.temperature_details.temp_C : ℚ)),
       ("soap_temp_C", PyVal.num (r.temperature_details.soap_temp_C : ℚ))]),
   ("time_details", PyVal.dict
      [("time_min", PyVal.num (r.time_details.time_min : ℚ)),
       ("soap_time_min", PyVal.num (r.time_details.soap_time_min : ℚ))]),
   ("liquor_ratio", PyVal.dict
      [("liquor_ratio", PyVal.num r.liquor_ratio.liquor_ratio)]),
   ("pH", PyVal.dict [("pH", PyVal.num r.pH.pH)]),
   ("water_hardness_ppm", PyVal.dict
      [("water_hardness_ppm", PyVal.num (r.water_hardness_ppm.water_hardness_ppm : ℚ))]),
   ("user_confirmations", PyVal.dict
      [("accept_outbound_top_option", PyVal.boolean r.user_confirmations.accept_outbound_top_option),
       ("notes", match r.user_confirmations.notes with
                 | some s => PyVal.str s
                 | Option.none => PyVal.pyNone)]),
   ("missing_info", PyVal.dict
      [("missing_fields", PyVal.list (r.missing_info.missing_fields.map PyVal.str)),
       ("question", PyVal.str r.missing_info.question)])]

/-- Lookup of a scalar field inside a sub-mapping of a dumped
requirements dictionary. -/
def lookup2 (d : PyDict) (outer inner : String) : Option PyVal :=
  match dictLookup d outer with
  | some (PyVal.dict sub) => dictLookup sub inner
  | _ => Option.none

/-- A dictionary slot holds a present, non-null numeric value. -/
def isNumericValue (v : Option PyVal) : Prop :=
  ∃ q, v = some (PyVal.num q)

/-- All twelve scalar fields of a dumped requirements dictionary are
present and non-null. -/
def twelveFieldsPresent (d : PyDict) : Prop :=
  isNumericValue (lookup2 d "rgb_details" "dye_red_owf")
  ∧ isNumericValue (lookup2 d "rgb_details" "dye_green_owf")
  ∧ isNumericValue (lookup2 d "rgb_details" "dye_blue_owf")
  ∧ isNumericValue (lookup2 d "chemical_details" "salt_gL")
  ∧ isNumericValue (lookup2 d "chemical_details" "sodaAsh_gL")
  ∧ isNumericValue (lookup2 d "temperature_details" "temp_C")
  ∧ isNumericValue (lookup2 d "temperature_details" "soap_temp_C")
  ∧ isNumericValue (lookup2 d "time_details" "time_min")
  ∧ isNumericValue (lookup2 d "time_details" "soap_time_min")
  ∧ isNumericValue (lookup2 d "liquor_ratio" "liquor_ratio")
  ∧ isNumericValue (lookup2 d "pH" "pH")
  ∧ isNumericValue (lookup2 d "water_hardness_ppm" "water_hardness_ppm")

/-- Chat transcript entries: HumanMessage and AIMessage contents. -/
inductive Message where
  | human (content : String)
  | ai (content : String)
deriving DecidableEq

/-- RequirementsGraphState (requirements_graph.py lines 13-17): the
MessagesState transcript plus the four custom channels. -/
structure GraphState where
  messages : List Message
  requirements_complete : Bool
  interruption_message : String
  requirements : Option PyDict
  prediction_result : Option PredictionResult

/-- Initial graph state for a fresh thread seeded with a transcript; the
non-message channels start unset (read back as false, empty and None, and
every node overwrites them before any read). -/
def initState (msgs : List Message) : GraphState :=
  { messages := msgs, requirements_complete := false, interruption_message := "",
    requirements := Option.none, prediction_result := Option.none }

/-- Node requirements_agent (requirements_graph.py lines 20-44) after the
structured agent response is known.  The agent call itself is the oracle
that produced resp.  A non-empty question appends it as an AI message,
records it as the interruption and marks the requirements incomplete;
an empty question stores the model_dump of the response and marks them
complete.  The messages channel uses the add_messages reducer, so the
returned message list is appended to the transcript. -/
def requirements_agent_node (resp : CompleteRequirements) (s : GraphState) : GraphState :=
  if resp.missing_info.question ≠ "" then
    { s with
      messages := s.messages ++ [Message.ai resp.missing_info.question],
      interruption_message := resp.missing_info.question,
      requirements_complete := false,
      requirements := Option.none,
      prediction_result := Option.none }
  else
    { s with
      messages := s.messages ++ [],
      requirements_complete := true,
      interruption_message := "",
      requirements := some (dumpRequirements resp),
      prediction_result := Option.none }

/-- Conditional edge predicate (requirements_graph.py lines 47-48). -/
def should_ask_user_for_info (s : GraphState) : Bool :=
  !s.requirements_complete

/-- Node ask_user_for_info (requirements_graph.py lines 51-60) after the
interrupt resumed with the user reply: the reply joins the transcript as a
human message and the pending interruption is cleared.  (The interrupt
call that suspends before this update is modelled in the turn functions
below.) -/
def ask_user_for_info (user_response : String) (s : GraphState) : GraphState :=
  { s with
    messages := s.messages ++ [Message.human user_response],
    interruption_message := "",
    requirements_complete := false,
    requirements := Option.none,
    prediction_result := Option.none }

/-- Python falsiness of the requirements channel as read by
make_prediction_node: None or an empty dict. -/
def pyFalsyOptDict (o : Option PyDict) : Bool :=
  match o with
  | Option.none => true
  | some d => d.isEmpty

/-- The fixed failure dictionary make_prediction_node stores when no
requirements are available (requirements_graph.py lines 70-76); the
source dict carries only the success and error keys. -/
def noRequirementsResult : PredictionResult :=
  { success := false, predicted_rgb := Option.none, hex_color := Option.none,
    error := some "No requirements available for prediction.", input_parameters := Option.none }

/-- Node make_prediction (requirements_graph.py lines 63-83).  The
returned number counts how many times predict_from_requirements was
invoked: zero on the falsy-requirements early return, one otherwise. -/
def make_prediction_node (outcome : InferOutcome) (s : GraphState) : GraphState × ℕ :=
  match s.requirements with
  | Option.none => ({ s with prediction_result := some noRequirementsResult }, 0)
  | some reqs =>
    if reqs.isEmpty then ({ s with prediction_result := some noRequirementsResult }, 0)
    else ({ s with prediction_result := some (predict_from_requirements outcome reqs) }, 1)

/-- Graph nodes (requirements_graph.py lines 86-97). -/
inductive Node where
  | start
  | requirementsAgent
  | askUserForInfo
  | makePrediction
  | endNode
deriving DecidableEq

/-- Unconditional edges of the compiled graph: START to
requirements_agent, ask_user_for_info back to requirements_agent, and
make_prediction to END.  requirements_agent leaves through the
conditional edge instead. -/
def graphSuccessor : Node → Option Node
  | .start => some .requirementsAgent
  | .askUserForInfo => some .requirementsAgent
  | .makePrediction => some .endNode
  | _ => Option.none

/-- The conditional edge out of requirements_agent: True routes to
ask_user_for_info, False to make_prediction. -/
def conditionalTarget (b : Bool) : Node :=
  if b then Node.askUserForInfo else Node.makePrediction

/-- Result of one controller turn: either the graph suspended inside
ask_user_for_info with the interrupt payload and the checkpointed state,
or it ran to END with the final state. -/
inductive TurnOutcome where
  | interrupted (payload : String) (state : GraphState)
  | completed (state : GraphState)

/-- Execution from the point where the extraction step has produced its
structured response resp: run requirements_agent_node, then follow the
conditional edge.  Routing to ask_user_for_info immediately executes
interrupt(state interruption_message), which suspends the turn with the
question as payload; routing to make_prediction runs the prediction node
and reaches END.  The second component counts predictor invocations. -/
def stepAfterExtraction (outcome : InferOutcome) (resp : CompleteRequirements)
    (s : GraphState) : TurnOutcome × ℕ :=
  let s1 := requirements_agent_node resp s
  if should_ask_user_for_info s1 then
    (TurnOutcome.interrupted s1.interruption_message s1, 0)
  else
    let (s2, n) := make_prediction_node outcome s1
    (TurnOutcome.completed s2, n)

/-- One fresh controller turn: invoke on a new thread seeded with the
given transcript.  Control enters at START, runs the extraction step on
the seeded transcript and continues as stepAfterExtraction. -/
def freshTurn (agent : List Message → CompleteRequirements) (outcome : InferOutcome)
    (msgs : List Message) : TurnOutcome × ℕ :=
  stepAfterExtraction outcome (agent msgs) (initState msgs)

/-- One resumed controller turn: the pending interrupt inside
ask_user_for_info returns the externally supplied reply, the node update
is applied, control follows the edge back to requirements_agent, the
extraction step runs on the augmented transcript and the turn continues
as stepAfterExtraction. -/
def resumeTurn (agent : List Message → CompleteRequirements) (outcome : InferOutcome)
    (reply : String) (s : GraphState) : TurnOutcome × ℕ :=
  let s2 := ask_user_for_info reply s
  stepAfterExtraction outcome (agent s2.messages) s2

/-- Request body of the chat endpoint (main.py lines 34-36). -/
structure ChatMessage where
  message : String
  session_id : Option String

/-- Response body of the chat endpoint (main.py lines 39-44). -/
structure ChatResponse where
  session_id : String
  response : String
  requires_input : Bool
  prediction_result : Option PredictionResult
  requirements : Option PyDict

/-- The dictionary returned by process_graph_step. -/
structure StepResult where
  requires_input : Bool
  response : String
  prediction_result : Option PredictionResult
  requirements : Option PyDict

/-- Per-thread record kept across calls: the sessions marker dict of
main.py combined with the langgraph checkpoint, either suspended at the
interrupt with its checkpointed state or already finished. -/
inductive ThreadRec where
  | suspended (s : GraphState)
  | finished (s : GraphState)

/-- The combined session store. -/
abbrev SessionStore := List (String × ThreadRec)

/-- Lookup of a session identifier in the store. -/
def storeFind (store : SessionStore) (sid : String) : Option ThreadRec :=
  match store with
  | [] => Option.none
  | (k, v) :: rest => if k = sid then some v else storeFind rest sid

/-- Insert or overwrite the record of a session identifier. -/
def storeSet (store : SessionStore) (sid : String) (r : ThreadRec) : SessionStore :=
  match store with
  | [] => [(sid, r)]
  | (k, v) :: rest => if k = sid then (sid, r) :: rest else (k, v) :: storeSet rest sid r

/-- Thread record left behind by a turn outcome. -/
def recOfOutcome : TurnOutcome → ThreadRec
  | .interrupted _ s => .suspended s
  | .completed s => .finished s

/-- The success line of main.py line 94. -/
def successLine (r g b : ℤ) (hex : String) : String :=
  "✅ Prediction complete! RGB: R=" ++ toString r ++ ", G=" ++ toString g
    ++ ", B=" ++ toString b ++ " | Hex: " ++ hex

/-- The assistant text synthesized for a completed turn (main.py lines
87-103): a success line with RGB and hex, a failure line with the error
message (or Unknown error), a requirements-only line, or the generic
completion line. -/
def synthesizeResponse (s : GraphState) : String :=
  match s.prediction_result with
  | some pred =>
    if pred.success then
      match pred.predicted_rgb, pred.hex_color with
      | some (r, g, b), some hex => successLine r g b hex
      | _, _ => "Processing complete."
    else "❌ Prediction failed: " ++ (pred.error.getD "Unknown error")
  | Option.none =>
    if pyFalsyOptDict s.requirements then "Processing complete."
    else "Requirements gathered successfully. Processing prediction..."

/-- Conversion of a turn outcome into the dictionary process_graph_step
returns: an interrupt surfaces requires_input true with the payload as
response text; a completed turn surfaces requires_input false with the
synthesized assistant text, the prediction result and the requirements. -/
def stepResultOfOutcome : TurnOutcome → StepResult
  | .interrupted payload s =>
    { requires_input := true, response := payload,
      prediction_result := Option.none, requirements := s.requirements }
  | .completed s =>
    { requires_input := false, response := synthesizeResponse s,
      prediction_result := s.prediction_result, requirements := s.requirements }

/-- Shallow embedding of process_graph_step (main.py lines 47-106).  An
unknown session identifier starts a fresh thread seeded with the message
as the first human message and marks the session as existing; a known
suspended session resumes from its checkpoint with the message as the
interrupt reply.  Resuming a session whose thread already finished is not
defined by the source; it is modelled by the abstract resumeFinished
parameter, which no theorem constrains. -/
def process_graph_step (agent : List Message → CompleteRequirements)
    (outcome : InferOutcome) (resumeFinished : StepResult)
    (store : SessionStore) (sid userMessage : String) : StepResult × SessionStore :=
  match storeFind store sid with
  | Option.none =>
    let t := (freshTurn agent outcome [Message.human userMessage]).1
    (stepResultOfOutcome t, storeSet store sid (recOfOutcome t))
  | some (ThreadRec.suspended s) =>
    let t := (resumeTurn agent outcome userMessage s).1
    (stepResultOfOutcome t, storeSet store sid (recOfOutcome t))
  | some (ThreadRec.finished _) => (resumeFinished, store)

/-- Python `message.session_id or str(uuid.uuid4())` (main.py line 115):
the provided identifier is kept unless it is absent or falsy (the empty
string), in which case the freshly generated uuid is used. -/
def effectiveSessionId (provided : Option String) (freshId : String) : String :=
  match provided with
  | Option.none => freshId
  | some s => if s = "" then freshId else s

/-- Shallow embedding of the chat endpoint handler (main.py lines
109-126): resolve the session identifier, run one controller step and
assemble the ChatResponse.  freshId is the uuid4 oracle. -/
def chat (agent : List Message → CompleteRequirements) (outcome : InferOutcome)
    (resumeFinished : StepResult) (freshId : String)
    (store : SessionStore) (msg : ChatMessage) : ChatResponse × SessionStore :=
  let sid := effectiveSessionId msg.session_id freshId
  let (r, store2) := process_graph_step agent outcome resumeFinished store sid msg.message
  ({ session_id := sid, response := r.response, requires_input := r.requires_input,
     prediction_result := r.prediction_result, requirements := r.requirements }, store2)

/-- HTTP methods used by the app. -/
inductive Method where
  | GET
  | POST
deriving DecidableEq

/-- The routes registered on the FastAPI app (main.py lines 109, 139, 145
and 176): the chat endpoint, the health check, the graph test endpoint
and the static index page.  A static-file mount at /static is added
conditionally when the directory exists. -/
def apiRoutes : List (Method × String) :=
  [(Method.POST, "/api/chat"),
   (Method.GET, "/api/health"),
   (Method.GET, "/api/test-graph"),
   (Method.GET, "/")]

/-- JSON body of the health endpoint (main.py line 142). -/
def healthBody : List (String × String) :=
  [("status", "ok")]

/-- Field names of the chat request body model. -/
def chatRequestFields : List String :=
  ["message", "session_id"]

/-- Field names of the chat response body model as serialized by
pydantic (snake_case, no aliases configured). -/
def chatResponseFields : List String :=
  ["session_id", "response", "requires_input", "prediction_result", "requirements"]

/-- Integer-valued rational built by the explicit constructor, so that
its numerator and denominator reduce definitionally inside concrete
witnesses. -/
def rq (n : ℤ) : ℚ :=
  ⟨n, 1, Nat.one_ne_zero, Nat.coprime_one_right _⟩

/-- The rational nine tenths, built by the explicit constructor for the
same reason; a model output on which truncation and rounding differ. -/
def q910 : ℚ :=
  ⟨9, 10, by norm_num, by norm_num⟩

/-- A concrete structured agent response carrying the given outstanding
question, used as input by the witnesses. -/
def sampleRequirements (q : String) : CompleteRequirements :=
  { rgb_details := ⟨rq 4, rq 3, rq 2⟩,
    chemical_details := ⟨rq 60, rq 15⟩,
    temperature_details := ⟨70, 85⟩,
    time_details := ⟨60, 20⟩,
    liquor_ratio := ⟨rq 15⟩,
    pH := ⟨rq 10⟩,
    water_hardness_ppm := ⟨200⟩,
    user_confirmations := ⟨true, Option.none⟩,
    missing_info := ⟨[], q⟩ }

/-- A concrete agent oracle that always asks the same question. -/
def askingAgent : List Message → CompleteRequirements :=
  fun _ => sampleRequirements "Which red percentage?"

/-- A concrete agent oracle that always returns a complete response. -/
def completeAgent : List Message → CompleteRequirements :=
  fun _ => sampleRequirements ""

/-- A placeholder StepResult standing in for the undefined
resume-of-finished-thread behaviour in concrete witnesses. -/
def dummyStepResult : StepResult :=
  { requires_input := false, response := "", prediction_result := Option.none,
    requirements := Option.none }

/-- C1.  A RequirementSet is complete iff its question string is empty:
the requirements_complete flag computed by the agent node is true exactly
when the question is empty; every response with an empty question dumps
to a dictionary in which all twelve scalar fields are present and
non-null; and the conditional edge routes to the prediction node exactly
when the question is empty, so the empty question is the sole gate to
prediction. -/
theorem completeness_invariant (resp : CompleteRequirements) (s : GraphState) :
    ((requirements_agent_node resp s).requirements_complete = true
        ↔ resp.missing_info.question = "")
    ∧ (resp.missing_info.question = "" → twelveFieldsPresent (dumpRequirements resp))
    ∧ (conditionalTarget (should_ask_user_for_info (requirements_agent_node resp s))
          = Node.makePrediction
        ↔ resp.missing_info.question = "") := by
  have h12 : twelveFieldsPresent (dumpRequirements resp) :=
    ⟨⟨_, rfl⟩, ⟨_, rfl⟩, ⟨_, rfl⟩, ⟨_, rfl⟩, ⟨_, rfl⟩, ⟨_, rfl⟩,
     ⟨_, rfl⟩, ⟨_, rfl⟩, ⟨_, rfl⟩, ⟨_, rfl⟩, ⟨_, rfl⟩, ⟨_, rfl⟩⟩
  by_cases h : resp.missing_info.question = "" <;>
    simp [requirements_agent_node, should_ask_user_for_info, conditionalTarget, h, h12]

/-- Witness for C1 at a concrete complete response. -/
theorem completeness_invariant_witness :
    twelveFieldsPresent (dumpRequirements (sampleRequirements "")) :=
  (completeness_invariant (sampleRequirements "") (initState [])).2.1 rfl

/-- C2.  A controller turn after the extraction step: a non-empty
question is appended as an assistant message, recorded as the pending
interruption, the completeness flag is set to false and the turn suspends
with the question as interrupt payload; an empty question stores the
dumped RequirementSet and the same turn proceeds to the prediction node,
whose stored result is the predictor output on the stored dictionary. -/
theorem controller_turn_after_extraction (outcome : InferOutcome)
    (resp : CompleteRequirements) (s : GraphState) :
    (resp.missing_info.question ≠ "" →
      stepAfterExtraction outcome resp s
        = (TurnOutcome.interrupted resp.missing_info.question (requirements_agent_node resp s), 0)
      ∧ (requirements_agent_node resp s).messages
          = s.messages ++ [Message.ai resp.missing_info.question]
      ∧ (requirements_agent_node resp s).interruption_message = resp.missing_info.question
      ∧ (requirements_agent_node resp s).requirements_complete = false)
    ∧ (resp.missing_info.question = "" →
      (requirements_agent_node resp s).requirements = some (dumpRequirements resp)
      ∧ stepAfterExtraction outcome resp s
          = (TurnOutcome.completed
               ((make_prediction_node outcome (requirements_agent_node resp s)).1), 1)
      ∧ ((make_prediction_node outcome (requirements_agent_node resp s)).1).prediction_result
          = some (predict_from_requirements outcome (dumpRequirements resp))) := by
  constructor
  · intro h
    simp [stepAfterExtraction, requirements_agent_node, should_ask_user_for_info, h]
  · intro h
    simp [stepAfterExtraction, requirements_agent_node, should_ask_user_for_info, h,
          make_prediction_node, dumpRequirements]

/-- Witness for C2: both branches exercised at concrete inputs. -/
theorem controller_turn_after_extraction_witness :
    (stepAfterExtraction (InferOutcome.exn "boom") (sampleRequirements "Which red percentage?")
        (initState [])
      = (TurnOutcome.interrupted "Which red percentage?"
           (requirements_agent_node (sampleRequirements "Which red percentage?") (initState [])), 0))
    ∧ (requirements_agent_node (sampleRequirements "") (initState [])).requirements
        = some (dumpRequirements (sampleRequirements "")) := by
  refine ⟨?_, ?_⟩
  · exact ((controller_turn_after_extraction (InferOutcome.exn "boom")
      (sampleRequirements "Which red percentage?") (initState [])).1 (by decide)).1
  · exact ((controller_turn_after_extraction (InferOutcome.exn "boom")
      (sampleRequirements "") (initState [])).2 rfl).1

/-- Hex digit characters round-trip through their numeric value and are
lowercase hex digits. -/
lemma hexDigit_roundtrip :
    ∀ d : ℕ, d < 16 →
      hexDigitVal (hexDigitChar d) = d ∧ isLowerHexDigit (hexDigitChar d) = true := by
  decide

/-- The clamped channel always lies in [0, 255]. -/
lemma clampChannel_bounds (n : ℤ) : 0 ≤ clampChannel n ∧ clampChannel n ≤ 255 := by
  unfold clampChannel
  omega

/-- Character list underlying the emitted hex colour string. -/
lemma hexColor_data (r g b : ℤ) :
    (hexColor r g b).data
      = ['#', hexDigitChar (r.toNat / 16), hexDigitChar (r.toNat % 16),
         hexDigitChar (g.toNat / 16), hexDigitChar (g.toNat % 16),
         hexDigitChar (b.toNat / 16), hexDigitChar (b.toNat % 16)] := rfl

/-- Decoding the emitted hex string recovers the exact channel values. -/
lemma decodeHexColor_hexColor (n m k : ℕ) (hn : n < 256) (hm : m < 256) (hk : k < 256) :
    decodeHexColor (hexColor (n : ℤ) (m : ℤ) (k : ℤ)) = some (n, m, k) := by
  have e1 := hexDigit_roundtrip (n / 16) (by omega)
  have e2 := hexDigit_roundtrip (n % 16) (by omega)
  have e3 := hexDigit_roundtrip (m / 16) (by omega)
  have e4 := hexDigit_roundtrip (m % 16) (by omega)
  have e5 := hexDigit_roundtrip (k / 16) (by omega)
  have e6 := hexDigit_roundtrip (k % 16) (by omega)
  unfold decodeHexColor
  rw [hexColor_data]
  simp only [Int.toNat_ofNat, decodeHexChars, List.all_cons, List.all_nil,
             e1.2, e2.2, e3.2, e4.2, e5.2, e6.2, Bool.and_self, Bool.and_true, if_true,
             e1.1, e2.1, e3.1, e4.1, e5.1, e6.1]
  have : ∀ j : ℕ, 16 * (j / 16) + j % 16 = j := fun j => Nat.div_add_mod j 16
  rw [this n, this m, this k]

/-- Definition following the spec wording, for comparison with the code:
the spec says each continuous output is rounded (round to nearest) and
clamped to [0, 255]; the code instead truncates toward zero with int()
before clamping. -/
def specRoundChannel (q : ℚ) : ℤ :=
  clampChannel (round q)

/-- Counterexample for C3.  The claim says the local backend rounds each
channel; on the model output nine tenths the code truncates to 0 while
rounding gives 1, so the produced channels differ from the rounded
channels. -/
theorem channel_rounding_counterexample :
    (makePrediction (InferOutcome.ok q910 q910 q910) []).predicted_rgb = some (0, 0, 0)
    ∧ specRoundChannel q910 = 1
    ∧ (makePrediction (InferOutcome.ok q910 q910 q910) []).predicted_rgb
        ≠ some (specRoundChannel q910, specRoundChannel q910, specRoundChannel q910) := by
  have ht : pyTrunc q910 = 0 := by decide
  have hq : q910 = (9 : ℚ) / 10 := by
    rw [q910, Rat.mk'_eq_divInt, Rat.divInt_eq_div]
    norm_num
  have hr : round q910 = 1 := by
    rw [hq, round_eq]
    norm_num
  have hs : specRoundChannel q910 = 1 := by
    rw [specRoundChannel, hr]
    rfl
  refine ⟨?_, hs, ?_⟩
  · simp [makePrediction, ht, clampChannel]
  · simp [makePrediction, ht, clampChannel, hs]

/-- C3 as amended.  For every triple of continuous model outputs the
local backend truncates each output toward zero with int() and clamps it
to an integer in [0, 255], and on success the returned hex code is
exactly a hash sign followed by the six lowercase hex digits derived from
those exact three channel values: it has seven characters, starts with
the hash sign, its remaining characters are lowercase hex digits, and
decoding it recovers the exact channels. -/
theorem local_predictor_channels_and_hex (r g b : ℚ) (params : List (String × PyVal)) :
    (makePrediction (InferOutcome.ok r g b) params).success = true
    ∧ (makePrediction (InferOutcome.ok r g b) params).predicted_rgb
        = some (clampChannel (pyTrunc r), clampChannel (pyTrunc g), clampChannel (pyTrunc b))
    ∧ (0 ≤ clampChannel (pyTrunc r) ∧ clampChannel (pyTrunc r) ≤ 255)
    ∧ (0 ≤ clampChannel (pyTrunc g) ∧ clampChannel (pyTrunc g) ≤ 255)
    ∧ (0 ≤ clampChannel (pyTrunc b) ∧ clampChannel (pyTrunc b) ≤ 255)
    ∧ (makePrediction (InferOutcome.ok r g b) params).hex_color
        = some (hexColor (clampChannel (pyTrunc r)) (clampChannel (pyTrunc g))
                  (clampChannel (pyTrunc b)))
    ∧ (hexColor (clampChannel (pyTrunc r)) (clampChannel (pyTrunc g))
         (clampChannel (pyTrunc b))).data.length = 7
    ∧ (hexColor (clampChannel (pyTrunc r)) (clampChannel (pyTrunc g))
         (clampChannel (pyTrunc b))).data.head? = some '#'
    ∧ ((hexColor (clampChannel (pyTrunc r)) (clampChannel (pyTrunc g))
         (clampChannel (pyTrunc b))).data.tail.all isLowerHexDigit = true)
    ∧ decodeHexColor (hexColor (clampChannel (pyTrunc r)) (clampChannel (pyTrunc g))
         (clampChannel (pyTrunc b)))
        = some ((clampChannel (pyTrunc r)).toNat, (clampChannel (pyTrunc g)).toNat,
                (clampChannel (pyTrunc b)).toNat) := by
  have br := clampChannel_bounds (pyTrunc r)
  have bg := clampChannel_bounds (pyTrunc g)
  have bb := clampChannel_bounds (pyTrunc b)
  have castr : ((clampChannel (pyTrunc r)).toNat : ℤ) = clampChannel (pyTrunc r) :=
    Int.toNat_of_nonneg br.1
  have castg : ((clampChannel (pyTrunc g)).toNat : ℤ) = clampChannel (pyTrunc g) :=
    Int.toNat_of_nonneg bg.1
  have castb : ((clampChannel (pyTrunc b)).toNat : ℤ) = clampChannel (pyTrunc b) :=
    Int.toNat_of_nonneg bb.1
  have hdec : decodeHexColor (hexColor (clampChannel (pyTrunc r)) (clampChannel (pyTrunc g))
      (clampChannel (pyTrunc b)))
      = some ((clampChannel (pyTrunc r)).toNat, (clampChannel (pyTrunc g)).toNat,
              (clampChannel (pyTrunc b)).toNat) := by
    rw [← castr, ← castg, ← castb]
    exact decodeHexColor_hexColor _ _ _ (by omega) (by omega) (by omega)
  refine ⟨rfl, rfl, br, bg, bb, rfl, rfl, rfl, ?_, hdec⟩
  rw [hexColor_data]
  simp only [List.tail_cons, List.all_cons, List.all_nil,
    (hexDigit_roundtrip _ (by omega : (clampChannel (pyTrunc r)).toNat / 16 < 16)).2,
    (hexDigit_roundtrip _ (by omega : (clampChannel (pyTrunc r)).toNat % 16 < 16)).2,
    (hexDigit_roundtrip _ (by omega : (clampChannel (pyTrunc g)).toNat / 16 < 16)).2,
    (hexDigit_roundtrip _ (by omega : (clampChannel (pyTrunc g)).toNat % 16 < 16)).2,
    (hexDigit_roundtrip _ (by omega : (clampChannel (pyTrunc b)).toNat / 16 < 16)).2,
    (hexDigit_roundtrip _ (by omega : (clampChannel (pyTrunc b)).toNat % 16 < 16)).2,
    Bool.and_self]

/-- Every failure result of the core prediction function carries no RGB
and no hex data and a descriptive message, and it fails exactly on the
error outcomes. -/
lemma makePrediction_shape (outcome : InferOutcome) (params : List (String × PyVal)) :
    ((makePrediction outcome params).success = false →
      (makePrediction outcome params).predicted_rgb = Option.none
      ∧ (makePrediction outcome params).hex_color = Option.none
      ∧ (makePrediction outcome params).error.isSome = true)
    ∧ ((makePrediction outcome params).success = true →
      (makePrediction outcome params).predicted_rgb.isSome = true
      ∧ (makePrediction outcome params).hex_color.isSome = true) := by
  cases outcome <;> simp [makePrediction]

/-- C4.  Every error condition of the local predictor (missing model
artifact, any exception during loading, input shaping or inference) is
surfaced as a success-false result carrying the descriptive message — the
FileNotFoundError text for a missing artifact, the exception text behind
a Prediction failed prefix otherwise — with no RGB and no hex data, and
the call returns such a dictionary instead of raising: it succeeds
exactly when the inference outcome is ok. -/
theorem predictor_error_surfacing (outcome : InferOutcome) (params : List (String × PyVal)) :
    ((makePrediction outcome params).success = false →
      (makePrediction outcome params).predicted_rgb = Option.none
      ∧ (makePrediction outcome params).hex_color = Option.none
      ∧ (makePrediction outcome params).error.isSome = true)
    ∧ (∀ p, outcome = InferOutcome.fileNotFound p →
      makePrediction outcome params
        = { success := false, predicted_rgb := Option.none, hex_color := Option.none,
            error := some (fileNotFoundMsg p), input_parameters := Option.none })
    ∧ (∀ m, outcome = InferOutcome.exn m →
      makePrediction outcome params
        = { success := false, predicted_rgb := Option.none, hex_color := Option.none,
            error := some ("Prediction failed: " ++ m), input_parameters := Option.none })
    ∧ ((makePrediction outcome params).success = true ↔ ∃ r g b, outcome = InferOutcome.ok r g b) := by
  refine ⟨(makePrediction_shape outcome params).1, ?_, ?_, ?_⟩
  · rintro p rfl
    rfl
  · rintro m rfl
    rfl
  · cases outcome <;> simp [makePrediction]

/-- Witness for C4 at the two concrete error outcomes. -/
theorem predictor_error_surfacing_witness :
    makePrediction (InferOutcome.fileNotFound "/models/colour_changing_predictor.pkl") []
      = { success := false, predicted_rgb := Option.none, hex_color := Option.none,
          error := some (fileNotFoundMsg "/models/colour_changing_predictor.pkl"),
          input_parameters := Option.none }
    ∧ makePrediction (InferOutcome.exn "boom") []
      = { success := false, predicted_rgb := Option.none, hex_color := Option.none,
          error := some "Prediction failed: boom", input_parameters := Option.none } :=
  ⟨(predictor_error_surfacing (InferOutcome.fileNotFound "/models/colour_changing_predictor.pkl")
      []).2.1 _ rfl,
   (predictor_error_surfacing (InferOutcome.exn "boom") []).2.2.1 _ rfl⟩

/-- C10.  predict_from_requirements is total over arbitrary dictionaries:
for every requirements dictionary and every inference outcome it returns
a well-formed result — success with RGB and hex data present, or failure
with success false, null RGB and hex and an error message — and whenever
the extraction of the twelve values fails, the result is exactly the
failure dictionary carrying the extraction error message. -/
theorem predict_from_requirements_total (outcome : InferOutcome) (requirements : PyDict) :
    ((predict_from_requirements outcome requirements).success = true
       ∧ (predict_from_requirements outcome requirements).predicted_rgb.isSome = true
       ∧ (predict_from_requirements outcome requirements).hex_color.isSome = true
     ∨ (predict_from_requirements outcome requirements).success = false
       ∧ (predict_from_requirements outcome requirements).predicted_rgb = Option.none
       ∧ (predict_from_requirements outcome requirements).hex_color = Option.none
       ∧ (predict_from_requirements outcome requirements).error.isSome = true)
    ∧ (∀ m, extractParams requirements = Except.error m →
      predict_from_requirements outcome requirements
        = { success := false, predicted_rgb := Option.none, hex_color := Option.none,
            error := some ("Failed to extract requirements: " ++ m),
            input_parameters := Option.none }) := by
  constructor
  · unfold predict_from_requirements
    cases hx : extractParams requirements with
    | ok p =>
      have hshape := makePrediction_shape outcome (paramsList p)
      cases hs : (makePrediction outcome (paramsList p)).success with
      | false => exact Or.inr ⟨rfl, (hshape.1 hs).1, (hshape.1 hs).2.1, (hshape.1 hs).2.2⟩
      | true => exact Or.inl ⟨rfl, (hshape.2 hs).1, (hshape.2 hs).2⟩
    | error m => simp
  · intro m hm
    unfold predict_from_requirements
    rw [hm]

/-- Witness for C10: the empty dictionary makes extraction fail at
float(None) on the dyeing temperature, and the result is the well-formed
failure dictionary. -/
theorem predict_from_requirements_total_witness :
    predict_from_requirements (InferOutcome.exn "boom") []
      = { success := false, predicted_rgb := Option.none, hex_color := Option.none,
          error := some ("Failed to extract requirements: float() argument must be a string or a real number, not \x27NoneType\x27"),
          input_parameters := Option.none } :=
  (predict_from_requirements_total (InferOutcome.exn "boom") []).2 _ rfl

/-- With a non-empty question the turn suspends at the interrupt with the
question as payload. -/
lemma stepAfterExtraction_of_incomplete (outcome : InferOutcome) (resp : CompleteRequirements)
    (s : GraphState) (h : resp.missing_info.question ≠ "") :
    stepAfterExtraction outcome resp s
      = (TurnOutcome.interrupted resp.missing_info.question (requirements_agent_node resp s), 0) := by
  simp [stepAfterExtraction, should_ask_user_for_info, requirements_agent_node, h]

/-- The prediction node invoked on a state holding a dumped requirements
dictionary runs the predictor exactly once and stores its result. -/
lemma make_prediction_node_on_dump (outcome : InferOutcome) (s : GraphState)
    (r : CompleteRequirements) (h : s.requirements = some (dumpRequirements r)) :
    make_prediction_node outcome s
      = ({ s with
           prediction_result := some (predict_from_requirements outcome (dumpRequirements r)) },
         1) := by
  simp [make_prediction_node, h, dumpRequirements]

/-- With an empty question the turn proceeds through the prediction node
to the end. -/
lemma stepAfterExtraction_of_complete (outcome : InferOutcome) (resp : CompleteRequirements)
    (s : GraphState) (h : resp.missing_info.question = "") :
    stepAfterExtraction outcome resp s
      = (TurnOutcome.completed
           { requirements_agent_node resp s with
             prediction_result := some (predict_from_requirements outcome (dumpRequirements resp)) },
         1) := by
  have hreq : (requirements_agent_node resp s).requirements = some (dumpRequirements resp) := by
    simp [requirements_agent_node, h]
  have hm := make_prediction_node_on_dump outcome (requirements_agent_node resp s) resp hreq
  have hc : (requirements_agent_node resp s).requirements_complete = true := by
    simp [requirements_agent_node, h]
  simp [stepAfterExtraction, should_ask_user_for_info, hc, hm]

/-- A turn segment reaches the terminal completed outcome exactly when
the extraction response has an empty question, and in that case the
predictor ran exactly once and its result, success or failure, is the
stored prediction result. -/
lemma stepAfterExtraction_completed_iff (outcome : InferOutcome) (resp : CompleteRequirements)
    (s : GraphState) :
    ((∃ out n, stepAfterExtraction outcome resp s = (TurnOutcome.completed out, n))
      ↔ resp.missing_info.question = "")
    ∧ ∀ out n, stepAfterExtraction outcome resp s = (TurnOutcome.completed out, n) →
        n = 1 ∧ out.prediction_result
          = some (predict_from_requirements outcome (dumpRequirements resp)) := by
  by_cases h : resp.missing_info.question = ""
  · have hs := stepAfterExtraction_of_complete outcome resp s h
    constructor
    · exact ⟨fun _ => h, fun _ => ⟨_, _, hs⟩⟩
    · intro out n heq
      rw [hs] at heq
      have h1 : TurnOutcome.completed _ = TurnOutcome.completed out := congrArg Prod.fst heq
      have h2 : (1 : ℕ) = n := congrArg Prod.snd heq
      cases h1
      exact ⟨h2.symm, rfl⟩
  · have hs := stepAfterExtraction_of_incomplete outcome resp s h
    constructor
    · constructor
      · rintro ⟨out, n, heq⟩
        rw [hs] at heq
        exact absurd (congrArg Prod.fst heq) (by simp)
      · intro hq
        exact absurd hq h
    · intro out n heq
      rw [hs] at heq
      exact absurd (congrArg Prod.fst heq) (by simp)

/-- C6.  A turn reaches the terminal state exactly when extraction
returned a complete response, and every turn that reaches the prediction
step runs the predictor exactly once (no retry within the turn) and
stores its PredictionResult whether it reports success or failure; this
holds for fresh and for resumed turns and for every predictor outcome. -/
theorem single_prediction_per_turn (agent : List Message → CompleteRequirements)
    (outcome : InferOutcome) (msgs : List Message) (reply : String) (s : GraphState) :
    ((∃ out n, freshTurn agent outcome msgs = (TurnOutcome.completed out, n))
      ↔ (agent msgs).missing_info.question = "")
    ∧ (∀ out n, freshTurn agent outcome msgs = (TurnOutcome.completed out, n) →
        n = 1 ∧ out.prediction_result
          = some (predict_from_requirements outcome (dumpRequirements (agent msgs))))
    ∧ ((∃ out n, resumeTurn agent outcome reply s = (TurnOutcome.completed out, n))
      ↔ (agent (s.messages ++ [Message.human reply])).missing_info.question = "")
    ∧ (∀ out n, resumeTurn agent outcome reply s = (TurnOutcome.completed out, n) →
        n = 1 ∧ out.prediction_result
          = some (predict_from_requirements outcome
              (dumpRequirements (agent (s.messages ++ [Message.human reply]))))) :=
  ⟨(stepAfterExtraction_completed_iff outcome (agent msgs) (initState msgs)).1,
   (stepAfterExtraction_completed_iff outcome (agent msgs) (initState msgs)).2,
   (stepAfterExtraction_completed_iff outcome (agent (s.messages ++ [Message.human reply]))
      (ask_user_for_info reply s)).1,
   (stepAfterExtraction_completed_iff outcome (agent (s.messages ++ [Message.human reply]))
      (ask_user_for_info reply s)).2⟩

/-- The final state of the concrete completed fresh turn used by the C6
witness. -/
def sampleCompletedState : GraphState :=
  { messages := [Message.human "hi"],
    requirements_complete := true,
    interruption_message := "",
    requirements := some (dumpRequirements (sampleRequirements "")),
    prediction_result := some (predict_from_requirements (InferOutcome.exn "x")
        (dumpRequirements (sampleRequirements ""))) }

/-- Witness for C6 at a concrete completed fresh turn: the predictor ran
once and its (failed) result is stored. -/
theorem single_prediction_per_turn_witness :
    freshTurn completeAgent (InferOutcome.exn "x") [Message.human "hi"]
      = (TurnOutcome.completed sampleCompletedState, 1)
    ∧ sampleCompletedState.prediction_result
      = some (predict_from_requirements (InferOutcome.exn "x")
          (dumpRequirements (sampleRequirements ""))) := by
  have heq : freshTurn completeAgent (InferOutcome.exn "x") [Message.human "hi"]
      = (TurnOutcome.completed sampleCompletedState, 1) := rfl
  have h := (single_prediction_per_turn completeAgent (InferOutcome.exn "x")
      [Message.human "hi"] "ignored" (initState [])).2.1 sampleCompletedState 1 heq
  exact ⟨heq, h.2⟩

/-- C9.  Whenever the prediction node runs on a state whose requirements
are absent or empty, the predictor is not invoked (invocation count zero)
and the stored PredictionResult is the fixed failure with success false
and the no-requirements error message, and the node edge still leads to
the terminal END node. -/
theorem empty_requirements_prediction_failure (outcome : InferOutcome) (s : GraphState)
    (h : pyFalsyOptDict s.requirements = true) :
    make_prediction_node outcome s
      = ({ s with prediction_result := some noRequirementsResult }, 0)
    ∧ noRequirementsResult.success = false
    ∧ noRequirementsResult.error = some "No requirements available for prediction."
    ∧ graphSuccessor Node.makePrediction = some Node.endNode := by
  refine ⟨?_, rfl, rfl, rfl⟩
  cases hr : s.requirements with
  | none => simp [make_prediction_node, hr]
  | some d =>
    have hd : d.isEmpty = true := by simpa [pyFalsyOptDict, hr] using h
    simp [make_prediction_node, hr, hd]

/-- Witness for C9 at a state with no requirements and at a state with an
empty requirements dictionary. -/
theorem empty_requirements_prediction_failure_witness :
    make_prediction_node (InferOutcome.exn "x") (initState [])
      = ({ initState [] with prediction_result := some noRequirementsResult }, 0)
    ∧ make_prediction_node (InferOutcome.exn "x")
        { initState [] with requirements := some [] }
      = ({ initState [] with
           requirements := some [],
           prediction_result := some noRequirementsResult },
         0) :=
  ⟨(empty_requirements_prediction_failure (InferOutcome.exn "x") (initState []) rfl).1,
   (empty_requirements_prediction_failure (InferOutcome.exn "x")
      { initState [] with requirements := some [] } rfl).1⟩

/-- C5.  Upon resume of a suspended session, the externally supplied
reply is appended to the transcript as a new human message (the
transcript grows rather than resets), the pending interruption message is
cleared to empty, the controller re-invokes the extraction step on the
augmented transcript, and the session boundary routes a known suspended
session through this resume path. -/
theorem resume_appends_and_reextracts (agent : List Message → CompleteRequirements)
    (outcome : InferOutcome) (resumeFinished : StepResult) (reply : String)
    (s : GraphState) (store : SessionStore) (sid : String)
    (h : storeFind store sid = some (ThreadRec.suspended s)) :
    (ask_user_for_info reply s).messages = s.messages ++ [Message.human reply]
    ∧ (ask_user_for_info reply s).interruption_message = ""
    ∧ resumeTurn agent outcome reply s
        = stepAfterExtraction outcome (agent (s.messages ++ [Message.human reply]))
            (ask_user_for_info reply s)
    ∧ (process_graph_step agent outcome resumeFinished store sid reply).1
        = stepResultOfOutcome (resumeTurn agent outcome reply s).1 := by
  refine ⟨rfl, rfl, rfl, ?_⟩
  unfold process_graph_step
  rw [h]

/-- The concrete suspended checkpoint used by witnesses: the state left
behind when the agent asked its question on a fresh turn. -/
def sampleSuspendedState : GraphState :=
  requirements_agent_node (sampleRequirements "Which red percentage?")
    (initState [Message.human "hi"])

/-- Witness for C5 at a concrete suspended session. -/
theorem resume_appends_and_reextracts_witness :
    (ask_user_for_info "42" sampleSuspendedState).messages
      = sampleSuspendedState.messages ++ [Message.human "42"]
    ∧ (ask_user_for_info "42" sampleSuspendedState).interruption_message = ""
    ∧ (process_graph_step askingAgent (InferOutcome.exn "x") dummyStepResult
         [("abc", ThreadRec.suspended sampleSuspendedState)] "abc" "42").1
        = stepResultOfOutcome
            (resumeTurn askingAgent (InferOutcome.exn "x") "42" sampleSuspendedState).1 := by
  have h := resume_appends_and_reextracts askingAgent (InferOutcome.exn "x") dummyStepResult
      "42" sampleSuspendedState [("abc", ThreadRec.suspended sampleSuspendedState)] "abc" rfl
  exact ⟨h.1, h.2.1, h.2.2.2⟩

/-- An unknown session identifier starts a fresh thread seeded with the
message as the first human message. -/
lemma process_graph_step_fresh (agent : List Message → CompleteRequirements)
    (outcome : InferOutcome) (resumeFinished : StepResult) (store : SessionStore)
    (sid userMessage : String) (h : storeFind store sid = Option.none) :
    process_graph_step agent outcome resumeFinished store sid userMessage
      = (stepResultOfOutcome (freshTurn agent outcome [Message.human userMessage]).1,
         storeSet store sid (recOfOutcome (freshTurn agent outcome [Message.human userMessage]).1)) := by
  unfold process_graph_step
  rw [h]

/-- A known suspended session resumes from its checkpoint with the
message as the interrupt reply. -/
lemma process_graph_step_resume (agent : List Message → CompleteRequirements)
    (outcome : InferOutcome) (resumeFinished : StepResult) (store : SessionStore)
    (sid userMessage : String) (s : GraphState)
    (h : storeFind store sid = some (ThreadRec.suspended s)) :
    process_graph_step agent outcome resumeFinished store sid userMessage
      = (stepResultOfOutcome (resumeTurn agent outcome userMessage s).1,
         storeSet store sid (recOfOutcome (resumeTurn agent outcome userMessage s).1)) := by
  unfold process_graph_step
  rw [h]

/-- Every interrupt payload is the pending interruption message of the
checkpointed state. -/
lemma stepAfterExtraction_fst_interrupted (outcome : InferOutcome)
    (resp : CompleteRequirements) (s : GraphState) (q : String) (s2 : GraphState) :
    (stepAfterExtraction outcome resp s).1 = TurnOutcome.interrupted q s2 →
      q = s2.interruption_message := by
  by_cases h : resp.missing_info.question = ""
  · rw [stepAfterExtraction_of_complete outcome resp s h]
    intro heq
    exact absurd heq (by simp)
  · rw [stepAfterExtraction_of_incomplete outcome resp s h]
    intro heq
    injection heq with hq hs2
    subst hq
    subst hs2
    simp [requirements_agent_node, h]

/-- Counterexample for C7.  With an empty session store, a provided but
unknown identifier abc and a freshly minted uuid m0, the chat handler
answers under the identifier abc: the unknown provided identifier is
reused as-is, no new identifier is minted, contradicting the claim that
an absent or unknown identifier leads to a minted identifier. -/
theorem unknown_session_id_reuse_counterexample :
    (chat askingAgent (InferOutcome.exn "x") dummyStepResult "m0" []
        { message := "hi", session_id := some "abc" }).1.session_id = "abc"
    ∧ "abc" ≠ "m0"
    ∧ storeFind [] "abc" = Option.none := by
  refine ⟨rfl, ?_, rfl⟩
  decide

/-- C7 as amended.  For every inbound message at the session boundary: a
new identifier is minted only when the provided identifier is absent or
empty, and the turn runs under the effective identifier (the provided one
whenever it is non-empty, even when unknown); when the effective
identifier is unknown the controller is started fresh seeded with the
message text as the first human message; when it is known and suspended
the controller is resumed with the text as the reply; and whenever the
controller suspends, the response carries requiresInput true together
with the pending question text. -/
theorem session_boundary_behavior (agent : List Message → CompleteRequirements)
    (outcome : InferOutcome) (resumeFinished : StepResult) (freshId : String)
    (store : SessionStore) (msg : ChatMessage) :
    ((msg.session_id = Option.none ∨ msg.session_id = some "") →
      (chat agent outcome resumeFinished freshId store msg).1.session_id = freshId)
    ∧ (chat agent outcome resumeFinished freshId store msg).1.session_id
        = effectiveSessionId msg.session_id freshId
    ∧ (storeFind store (effectiveSessionId msg.session_id freshId) = Option.none →
        (chat agent outcome resumeFinished freshId store msg)
          = ({ session_id := effectiveSessionId msg.session_id freshId,
               response := (stepResultOfOutcome
                   (freshTurn agent outcome [Message.human msg.message]).1).response,
               requires_input := (stepResultOfOutcome
                   (freshTurn agent outcome [Message.human msg.message]).1).requires_input,
               prediction_result := (stepResultOfOutcome
                   (freshTurn agent outcome [Message.human msg.message]).1).prediction_result,
               requirements := (stepResultOfOutcome
                   (freshTurn agent outcome [Message.human msg.message]).1).requirements },
             storeSet store (effectiveSessionId msg.session_id freshId)
               (recOfOutcome (freshTurn agent outcome [Message.human msg.message]).1)))
    ∧ (∀ s, storeFind store (effectiveSessionId msg.session_id freshId)
          = some (ThreadRec.suspended s) →
        (chat agent outcome resumeFinished freshId store msg)
          = ({ session_id := effectiveSessionId msg.session_id freshId,
               response := (stepResultOfOutcome
                   (resumeTurn agent outcome msg.message s).1).response,
               requires_input := (stepResultOfOutcome
                   (resumeTurn agent outcome msg.message s).1).requires_input,
               prediction_result := (stepResultOfOutcome
                   (resumeTurn agent outcome msg.message s).1).prediction_result,
               requirements := (stepResultOfOutcome
                   (resumeTurn agent outcome msg.message s).1).requirements },
             storeSet store (effectiveSessionId msg.session_id freshId)
               (recOfOutcome (resumeTurn agent outcome msg.message s).1)))
    ∧ (∀ q s2, storeFind store (effectiveSessionId msg.session_id freshId) = Option.none →
        (freshTurn agent outcome [Message.human msg.message]).1
          = TurnOutcome.interrupted q s2 →
        (chat agent outcome resumeFinished freshId store msg).1.requires_input = true
        ∧ (chat agent outcome resumeFinished freshId store msg).1.response = q
        ∧ q = s2.interruption_message)
    ∧ (∀ s q s2, storeFind store (effectiveSessionId msg.session_id freshId)
          = some (ThreadRec.suspended s) →
        (resumeTurn agent outcome msg.message s).1 = TurnOutcome.interrupted q s2 →
        (chat agent outcome resumeFinished freshId store msg).1.requires_input = true
        ∧ (chat agent outcome resumeFinished freshId store msg).1.response = q
        ∧ q = s2.interruption_message) := by
  refine ⟨?_, rfl, ?_, ?_, ?_, ?_⟩
  · intro h
    rcases h with h | h <;> simp [chat, effectiveSessionId, h]
  · intro h
    simp only [chat]
    rw [process_graph_step_fresh agent outcome resumeFinished store _ _ h]
  · intro s h
    simp only [chat]
    rw [process_graph_step_resume agent outcome resumeFinished store _ _ s h]
  · intro q s2 h hint
    have hp := process_graph_step_fresh agent outcome resumeFinished store
        (effectiveSessionId msg.session_id freshId) msg.message h
    have hresp : (chat agent outcome resumeFinished freshId store msg).1.response
        = (stepResultOfOutcome (freshTurn agent outcome [Message.human msg.message]).1).response := by
      simp only [chat, hp]
    have hreq : (chat agent outcome resumeFinished freshId store msg).1.requires_input
        = (stepResultOfOutcome (freshTurn agent outcome [Message.human msg.message]).1).requires_input := by
      simp only [chat, hp]
    rw [hint] at hresp hreq
    exact ⟨hreq, hresp, stepAfterExtraction_fst_interrupted outcome
      (agent [Message.human msg.message]) (initState [Message.human msg.message]) q s2 hint⟩
  · intro s q s2 h hint
    have hp := process_graph_step_resume agent outcome resumeFinished store
        (effectiveSessionId msg.session_id freshId) msg.message s h
    have hresp : (chat agent outcome resumeFinished freshId store msg).1.response
        = (stepResultOfOutcome (resumeTurn agent outcome msg.message s).1).response := by
      simp only [chat, hp]
    have hreq : (chat agent outcome resumeFinished freshId store msg).1.requires_input
        = (stepResultOfOutcome (resumeTurn agent outcome msg.message s).1).requires_input := by
      simp only [chat, hp]
    rw [hint] at hresp hreq
    exact ⟨hreq, hresp, stepAfterExtraction_fst_interrupted outcome
      (agent (s.messages ++ [Message.human msg.message])) (ask_user_for_info msg.message s)
      q s2 hint⟩

/-- Witness for C7: a fresh session with no identifier gets the minted
identifier and, since the agent asks a question, the response carries
requiresInput true with the question text. -/
theorem session_boundary_behavior_witness :
    (chat askingAgent (InferOutcome.exn "x") dummyStepResult "m0" []
        { message := "hi", session_id := Option.none }).1.session_id = "m0"
    ∧ (chat askingAgent (InferOutcome.exn "x") dummyStepResult "m0" []
        { message := "hi", session_id := Option.none }).1.requires_input = true
    ∧ (chat askingAgent (InferOutcome.exn "x") dummyStepResult "m0" []
        { message := "hi", session_id := Option.none }).1.response
        = "Which red percentage?" := by
  have h := session_boundary_behavior askingAgent (InferOutcome.exn "x") dummyStepResult "m0" []
      { message := "hi", session_id := Option.none }
  refine ⟨h.1 (Or.inl rfl), ?_, ?_⟩
  · exact (h.2.2.2.2.1 "Which red percentage?"
      (requirements_agent_node (sampleRequirements "Which red percentage?")
        (initState [Message.human "hi"])) rfl rfl).1
  · exact (h.2.2.2.2.1 "Which red percentage?"
      (requirements_agent_node (sampleRequirements "Which red percentage?")
        (initState [Message.human "hi"])) rfl rfl).2.1

/-- Counterexample for C8.  The claim says the HTTP surface exposes
exactly POST /chat and GET /health with a response containing a sessionId
field; the app actually registers its routes under the /api prefix,
additionally exposes GET /api/test-graph and GET /, and serializes the
response with snake case field names. -/
theorem http_routes_counterexample :
    apiRoutes ≠ [(Method.POST, "/chat"), (Method.GET, "/health")]
    ∧ (Method.POST, "/chat") ∉ apiRoutes
    ∧ (Method.GET, "/health") ∉ apiRoutes
    ∧ (Method.GET, "/api/test-graph") ∈ apiRoutes
    ∧ (Method.GET, "/") ∈ apiRoutes
    ∧ "sessionId" ∉ chatResponseFields
    ∧ "requiresInput" ∉ chatResponseFields := by
  decide

/-- C8 as amended.  The HTTP surface exposes POST /api/chat accepting a
body with fields message and optional session_id and returning a body
with fields session_id, response, requires_input, optional
prediction_result and optional requirements; GET /api/health returning
the status ok body; and additionally GET /api/test-graph and GET / (the
static index page), with a conditional static-file mount. -/
theorem http_surface_routes :
    apiRoutes = [(Method.POST, "/api/chat"), (Method.GET, "/api/health"),
                 (Method.GET, "/api/test-graph"), (Method.GET, "/")]
    ∧ chatRequestFields = ["message", "session_id"]
    ∧ chatResponseFields = ["session_id", "response", "requires_input",
                            "prediction_result", "requirements"]
    ∧ healthBody = [("status", "ok")] := by
  decide

end ColourApp
